import Mathlib

/-!
# Verification of the Vortex-MacroPad desktop programs

Shallow embedding of the two Python programs of the repository:

* `Software.py` — the telemetry sender.  Its genuinely stateful part is the
  media timeline estimator `get_media_info`, which keeps a cached media
  session handle and a mutable timeline record (`_last_timeline`) and
  synthesizes a smoothly advancing elapsed-time clock between infrequent
  authoritative refreshes.  External WinRT collaborator calls are modelled by
  an `Oracle` record whose fields are `Except`-valued: `.error` models the
  call raising an exception, which the Python code swallows with a bare
  `except:` that returns a fixed idle tuple.  Wall-clock times (`time.time()`)
  are modelled as rationals; Python's `int()` truncation is `pyInt`.

* `Mirroring.py` — the ack-gated screen mirroring loop `start_mirroring`.
  Serial reads are modelled as a finite list of read results (`none` models a
  read timeout returning no byte), and the grab/resize/convert-to-1-bit
  collaborator pipeline as a `capture` function yielding the packed bytes of
  the `k`-th captured frame.
-/

namespace VortexMacroPad

/-- Python `int(x)` on a real quantity: truncation toward zero. -/
def pyInt (q : ℚ) : ℤ := if 0 ≤ q then ⌊q⌋ else ⌈q⌉

/-- Python `x or d` where `x` is an optional string: the default `d` is used
when `x` is `None` or the empty string (both falsy). -/
def pyOrStr (x : Option String) (d : String) : String :=
  match x with
  | none => d
  | some s => if s = "" then d else s

/-- Python `f"{n:02d}"` for the seconds field: zero-pad to two digits. -/
def pad2 (n : ℤ) : String := if n < 10 then "0" ++ toString n else toString n

/-- `f"{s // 60}:{s % 60:02d}"` from `get_media_info` (Software.py lines
211-212).  Python `//` and `%` on a positive divisor are Euclidean. -/
def fmtTime (s : ℤ) : String := toString (Int.ediv s 60) ++ ":" ++ pad2 (Int.emod s 60)

/-- The time-label rendering as the spec's words describe it, on natural
seconds: floor of s/60, a colon, then s mod 60 zero-padded to two digits.
Stated separately from `fmtTime` (which is translated from the code) so that
claim C5 is a genuine refinement statement. -/
def specTimeLabel (s : ℕ) : String :=
  toString (s / 60) ++ ":" ++ (if s % 60 < 10 then "0" ++ toString (s % 60) else toString (s % 60))

/-- The `_last_timeline` record of Software.py (lines 136-143). -/
structure Timeline where
  base_position : ℤ
  base_time : ℚ
  duration : ℤ
  playing : Bool
  title : String
  artist : String
deriving DecidableEq

/-- Initial value of `_last_timeline`. -/
def initialTimeline : Timeline :=
  { base_position := 0
    base_time := 0
    duration := 0
    playing := false
    title := "No Media"
    artist := "System Idle" }

/-- The module-level mutable state of the estimator: `_media_session`,
`_media_last_refresh` and `_last_timeline`.  A session handle is just an
identifier; `none` models both "never acquired" and "no current session". -/
structure MediaState where
  media_session : Option ℕ
  media_last_refresh : ℚ
  timeline : Timeline
deriving DecidableEq

/-- The initial module-level state (`_media_session = None`,
`_media_last_refresh = 0`). -/
def initialState : MediaState :=
  { media_session := none, media_last_refresh := 0, timeline := initialTimeline }

/-- Result of `try_get_media_properties_async()`: title and artist, each of
which the code reads with `props.title or "No Title"` — `none` models a
missing (`None`) value and `some ""` an empty one. -/
structure MediaProps where
  title : Option String
  artist : Option String
deriving DecidableEq

/-- Result of `get_timeline_properties()` when the object is not `None`:
`position` and `max_seek_time` in seconds (`total_seconds()` of the
timedeltas).  A `timedelta` is falsy in Python exactly when it is zero. -/
structure TimelineProps where
  position : ℚ
  max_seek_time : ℚ
deriving DecidableEq

/-- The WinRT collaborator calls a single `get_media_info` invocation can
make.  `.error ()` models the call raising; the values are what it returns
when it does not raise.  `getSession` combines `SM.request_async()` with
`sessions.get_current_session()` (state is only written after both succeed);
`getPlayback` yields `playback_info.playback_status`, or `none` when
`get_playback_info()` returns `None` (in which case the Python attribute
access `playback.playback_status` raises, after the earlier dict writes). -/
structure Oracle where
  getSession : Except Unit (Option ℕ)
  getProps : Except Unit (Option MediaProps)
  getTimeline : Except Unit (Option TimelineProps)
  getPlayback : Except Unit (Option ℤ)

/-- The idle fallback tuple returned from the `except:` arm. -/
def mediaIdle : String × String × String × String := ("No Media", "System Idle", "0:00", "0:00")

/-- Guard of the session refresh (line 160):
`_media_session is None or now - _media_last_refresh > 3`. -/
def sessionGate (st : MediaState) (now : ℚ) : Prop :=
  st.media_session = none ∨ 3 < now - st.media_last_refresh

instance (st : MediaState) (now : ℚ) : Decidable (sessionGate st now) := by
  unfold sessionGate; infer_instance

/-- Guard of the timeline refresh (line 172):
`now - _last_timeline["base_time"] > 3`. -/
def timelineGate (st : MediaState) (now : ℚ) : Prop :=
  3 < now - st.timeline.base_time

instance (st : MediaState) (now : ℚ) : Decidable (timelineGate st now) := by
  unfold timelineGate; infer_instance

/-- The smooth local clock (lines 167-169 and again 204-207):
`base_position`, advanced by `int(now - base_time)` while playing. -/
def smoothElapsed (t : Timeline) (now : ℚ) : ℤ :=
  t.base_position + (if t.playing then pyInt (now - t.base_time) else 0)

/-- The tuple built on the non-raising paths (lines 204-219). -/
def smoothTuple (t : Timeline) (now : ℚ) : String × String × String × String :=
  (t.title, t.artist, fmtTime (smoothElapsed t now), fmtTime t.duration)

/-- The dict writes of a timeline refresh (lines 177-197), given the
already-computed `simulated` value: title/artist placeholders, the
drift-bounded resync guarded by `if timeline and timeline.position:`
(a zero position is falsy and skips the whole resync), and the duration
update guarded by `if timeline and timeline.max_seek_time:`.  The
`playing` write happens afterwards and is not part of this step. -/
def refreshTimeline (t : Timeline) (simulated : ℤ) (now : ℚ)
    (props : MediaProps) (tlOpt : Option TimelineProps) : Timeline :=
  let t2 := { t with title := pyOrStr props.title "No Title"
                     artist := pyOrStr props.artist "No Artist" }
  let t3 := match tlOpt with
    | some tl =>
      if tl.position ≠ 0 then
        let real_position := pyInt tl.position
        if 2 < |real_position - simulated| then
          { t2 with base_position := real_position, base_time := now }
        else
          { t2 with base_position := simulated, base_time := now }
      else t2
    | none => t2
  match tlOpt with
  | some tl =>
    if tl.max_seek_time ≠ 0 then { t3 with duration := pyInt tl.max_seek_time } else t3
  | none => t3

/-- Session re-acquisition (lines 159-163).  On a raise, the state is
unchanged so far; on success both `_media_session` and `_media_last_refresh`
are written. -/
def stepSession (st : MediaState) (o : Oracle) (now : ℚ) : Except MediaState MediaState :=
  if sessionGate st now then
    match o.getSession with
    | .error _ => .error st
    | .ok s => .ok { st with media_session := s, media_last_refresh := now }
  else .ok st

/-- The `if _media_session:` body (lines 165-201).  The three collaborator
calls are made in order; a raise in any of them aborts with the state as
mutated so far.  A `None` media-properties object raises at `props.title`
(before any dict write); a `None` playback object raises at
`playback.playback_status` (after the title/artist/position/duration
writes). -/
def stepTimeline (st1 : MediaState) (o : Oracle) (now : ℚ) : Except MediaState MediaState :=
  match st1.media_session with
  | none => .ok st1
  | some _ =>
    if timelineGate st1 now then
      match o.getProps with
      | .error _ => .error st1
      | .ok propsOpt =>
        match o.getTimeline with
        | .error _ => .error st1
        | .ok tlOpt =>
          match o.getPlayback with
          | .error _ => .error st1
          | .ok pbOpt =>
            match propsOpt with
            | none => .error st1
            | some props =>
              let t4 := refreshTimeline st1.timeline (smoothElapsed st1.timeline now) now props tlOpt
              match pbOpt with
              | none => .error { st1 with timeline := t4 }
              | some status =>
                .ok { st1 with timeline := { t4 with playing := decide (status = 4) } }
    else .ok st1

/-- The whole `try:` body of `get_media_info` (lines 158-219): session
refresh, optional timeline refresh, then the smooth local clock.  `.error`
carries the state as mutated at the raise point. -/
def mediaBody (st : MediaState) (o : Oracle) (now : ℚ) :
    Except MediaState (MediaState × (String × String × String × String)) :=
  match stepSession st o now with
  | .error e => .error e
  | .ok st1 =>
    match stepTimeline st1 o now with
    | .error e => .error e
    | .ok st2 => .ok (st2, smoothTuple st2.timeline now)

/-- `get_media_info` (Software.py lines 146-224): run the `try:` body; any
raise is swallowed and the fixed idle tuple returned, with the state as
mutated so far. -/
def get_media_info (st : MediaState) (o : Oracle) (now : ℚ) :
    MediaState × (String × String × String × String) :=
  match mediaBody st o now with
  | .ok r => r
  | .error st' => (st', mediaIdle)

/-! ## Peak-level meter (`audio_capture_thread`, Software.py lines 112-121) -/

/-- `np.max(np.abs(column))` for a channel's samples.  The thread only runs
this on a nonempty block (`data.size > 0`), where seeding the fold with `0`
is harmless since every `|x|` is nonnegative. -/
def channelPeak (xs : List ℚ) : ℚ := xs.foldr (fun x m => max |x| m) 0

/-- `np.clip(x, lo, hi)`. -/
def npClip (x lo hi : ℚ) : ℚ := min (max x lo) hi

/-- `int(np.clip(peak * 18.0, 0, 8))`: scale by the fixed gain, clamp to
[0, 8], truncate to an integer. -/
def levelOf (peak : ℚ) : ℤ := pyInt (npClip (peak * 18) 0 8)

/-- Both channels' levels for one stereo block (`l_val`, `r_val`). -/
def blockLevels (data : List (ℚ × ℚ)) : ℤ × ℤ :=
  (levelOf (channelPeak (data.map Prod.fst)), levelOf (channelPeak (data.map Prod.snd)))

/-! ## Screen mirroring (`start_mirroring`, Mirroring.py lines 16-61) -/

/-- Fixed frame size (Mirroring.py line 16). -/
def WIDTH : ℕ := 128

/-- Fixed frame size (Mirroring.py line 16). -/
def HEIGHT : ℕ := 64

/-- `START_BYTE = b'\x02'` (line 18). -/
def START_BYTE : ℕ := 0x02

/-- `ACK_BYTE = b'\x06'` (line 19). -/
def ACK_BYTE : ℕ := 0x06

/-- The `while True:` loop of `start_mirroring` (lines 55-61), run over a
finite list of `ser.read(1)` results (`none` = timeout, no byte).  `capture k`
is the packed 1-bit bitmap of the `k`-th screen grab (the
grab/resize/convert pipeline is an external collaborator whose contract is a
`WIDTH*HEIGHT/8`-byte payload).  Returns the list of serial writes made. -/
def mirrorLoop (reads : List (Option ℕ)) (capture : ℕ → List ℕ) (k : ℕ) : List (List ℕ) :=
  match reads with
  | [] => []
  | r :: rs =>
    if r = some ACK_BYTE then (START_BYTE :: capture k) :: mirrorLoop rs capture (k + 1)
    else mirrorLoop rs capture k

/-- `start_mirroring` (lines 49-61): one unsolicited initial frame
("Send initial frame to start handshake"), then the ack-gated loop. -/
def start_mirroring (reads : List (Option ℕ)) (capture : ℕ → List ℕ) : List (List ℕ) :=
  (START_BYTE :: capture 0) :: mirrorLoop reads capture 1

/-- Number of acknowledgement bytes received in a read sequence. -/
def ackCount (reads : List (Option ℕ)) : ℕ :=
  reads.countP (fun r => decide (r = some ACK_BYTE))

/-! ## Concrete scenarios used by counterexamples and witnesses -/

/-- An oracle on which every collaborator call raises. -/
def oErr : Oracle := ⟨.error (), .error (), .error (), .error ()⟩

/-- A benign oracle: a session is present, properties are populated, the
timeline object is `None`, playback reports the "playing" status 4. -/
def oOk : Oracle := ⟨.ok (some 1), .ok (some ⟨some "x", some "y"⟩), .ok none, .ok (some 4)⟩

/-- Mid-playback state: session cached moments ago, track at 10 s with the
resync point at wall-clock 0, playing. -/
def stC1 : MediaState := ⟨some 1, 9, ⟨10, 0, 0, true, "T", "A"⟩⟩

/-- Collaborator for the C1 counterexample: reports position exactly 0
(e.g. a track restarted from the beginning) and a 200 s seek range. -/
def oC1 : Oracle := ⟨.ok (some 1), .ok (some ⟨some "T2", some "A2"⟩), .ok (some ⟨0, 200⟩), .ok (some 4)⟩

/-- Collaborator for the C1 witness: reports a nonzero position of 30 s. -/
def oW1 : Oracle := ⟨.ok (some 1), .ok (some ⟨some "T2", some "A2"⟩), .ok (some ⟨30, 200⟩), .ok (some 4)⟩

/-- State holding stale now-playing metadata from an earlier refresh. -/
def stC3 : MediaState := ⟨some 1, 0, ⟨10, 0, 200, true, "Song", "Band"⟩⟩

/-- Collaborator reporting that no media session is active. -/
def oC3 : Oracle := ⟨.ok none, .error (), .error (), .error ()⟩

/-- State whose session lookup is due for a refresh. -/
def stC4 : MediaState := ⟨some 1, 0, ⟨0, 0, 0, false, "T", "A"⟩⟩

/-- Collaborator where the session re-acquisition succeeds (with a new
handle) but the media-properties fetch raises. -/
def oC4 : Oracle := ⟨.ok (some 2), .error (), .error (), .error ()⟩

/-- Fresh state (both refresh intervals not yet elapsed at `now = 1, 2`). -/
def stW2 : MediaState := ⟨some 1, 10, ⟨5, 0, 100, true, "T", "A"⟩⟩

/-- State at its own refresh instants: no interval has elapsed at `now = 10`. -/
def stW7 : MediaState := ⟨some 1, 10, ⟨5, 10, 100, true, "T", "A"⟩⟩

/-- Playing state, 7 s at resync point 3, queried at `now = 5`. -/
def stW9 : MediaState := ⟨some 1, 5, ⟨7, 3, 100, true, "T", "A"⟩⟩

/-- State due for a timeline refresh at `now = 9`. -/
def stW10 : MediaState := ⟨some 1, 9, ⟨0, 0, 0, false, "Old", "OldA"⟩⟩

/-- Collaborator returning an empty title and a missing artist. -/
def oW10 : Oracle := ⟨.error (), .ok (some ⟨some "", none⟩), .ok none, .ok (some 4)⟩

/-! ## Helper lemmas -/

theorem pyInt_nonneg {q : ℚ} (h : 0 ≤ q) : 0 ≤ pyInt q := by
  unfold pyInt
  rw [if_pos h]
  exact Int.le_floor.2 (by exact_mod_cast h)

theorem pyInt_mono {a b : ℚ} (h : a ≤ b) : pyInt a ≤ pyInt b := by
  unfold pyInt
  split_ifs with h1 h2 h2
  · exact Int.floor_mono h
  · exact absurd (le_trans h1 h) h2
  · exact le_trans (Int.ceil_le.2 (by exact_mod_cast le_of_not_le h1))
      (Int.le_floor.2 (by exact_mod_cast h2))
  · exact Int.ceil_mono h

theorem levelOf_bounds (p : ℚ) : 0 ≤ levelOf p ∧ levelOf p ≤ 8 := by
  have h0 : (0:ℚ) ≤ min (max (p * 18) 0) 8 := le_min (le_max_right _ _) (by norm_num)
  have h8 : min (max (p * 18) 0) 8 ≤ (8:ℚ) := min_le_right _ _
  unfold levelOf npClip pyInt
  rw [if_pos h0]
  refine ⟨Int.le_floor.2 (by exact_mod_cast h0), ?_⟩
  calc ⌊min (max (p * 18) 0) 8⌋ ≤ ⌊(8:ℚ)⌋ := Int.floor_mono h8
    _ = 8 := by norm_num

theorem levelOf_sat {p : ℚ} (h : 8/18 ≤ p) : levelOf p = 8 := by
  have h8 : (8:ℚ) ≤ p * 18 := by linarith
  unfold levelOf npClip
  rw [max_eq_left (by linarith), min_eq_right h8]
  norm_num [pyInt]

theorem levelOf_zero : levelOf 0 = 0 := by norm_num [levelOf, npClip, pyInt]

theorem stepSession_not_gate {st : MediaState} {o : Oracle} {now : ℚ}
    (h : ¬ sessionGate st now) : stepSession st o now = .ok st := by
  unfold stepSession
  rw [if_neg h]

theorem stepSession_gate_ok {st : MediaState} {o : Oracle} {now : ℚ} {s : Option ℕ}
    (h : sessionGate st now) (hs : o.getSession = .ok s) :
    stepSession st o now = .ok { st with media_session := s, media_last_refresh := now } := by
  unfold stepSession
  rw [if_pos h, hs]

theorem stepTimeline_no_gate {st1 : MediaState} {o : Oracle} {now : ℚ}
    (ht : ¬ timelineGate st1 now) : stepTimeline st1 o now = .ok st1 := by
  unfold stepTimeline
  cases hms : st1.media_session with
  | none => rfl
  | some sid => rw [if_neg ht]

/-- When the timeline refresh interval has not elapsed and any session
re-acquisition succeeds, a sample leaves the timeline untouched and returns
the smooth-clock tuple of the stored timeline. -/
theorem noTimelineRefresh_eval (st : MediaState) (o : Oracle) (now : ℚ)
    (ht : ¬ timelineGate st now)
    (hs : sessionGate st now → ∃ s, o.getSession = .ok s) :
    (get_media_info st o now).1.timeline = st.timeline ∧
    (get_media_info st o now).2 = smoothTuple st.timeline now := by
  unfold get_media_info mediaBody
  by_cases hg : sessionGate st now
  · obtain ⟨s, hs'⟩ := hs hg
    rw [stepSession_gate_ok hg hs']
    dsimp only
    have ht1 : ¬ timelineGate { st with media_session := s, media_last_refresh := now } now := ht
    rw [stepTimeline_no_gate ht1]
    exact ⟨rfl, rfl⟩
  · rw [stepSession_not_gate hg]
    dsimp only
    rw [stepTimeline_no_gate ht]
    exact ⟨rfl, rfl⟩

theorem not_sessionGate_of {st : MediaState} {now : ℚ} {sid : ℕ}
    (hsid : st.media_session = some sid) (hg : ¬ (3 < now - st.media_last_refresh)) :
    ¬ sessionGate st now := by
  intro h
  rcases h with h0 | h1
  · rw [hsid] at h0
    exact Option.noConfusion h0
  · exact hg h1

/-- Full evaluation of a successful timeline refresh (no session refresh due,
all three collaborator calls succeed, properties and playback objects
present). -/
theorem refresh_eval {st : MediaState} {o : Oracle} {now : ℚ} {sid : ℕ}
    {props : MediaProps} {tlOpt : Option TimelineProps} {status : ℤ}
    (hsid : st.media_session = some sid)
    (hg : ¬ (3 < now - st.media_last_refresh))
    (ht : timelineGate st now)
    (hp : o.getProps = .ok (some props))
    (htl : o.getTimeline = .ok tlOpt)
    (hpb : o.getPlayback = .ok (some status)) :
    get_media_info st o now =
      ({ st with timeline :=
          { refreshTimeline st.timeline (smoothElapsed st.timeline now) now props tlOpt with
            playing := decide (status = 4) } },
       smoothTuple { refreshTimeline st.timeline (smoothElapsed st.timeline now) now props tlOpt with
            playing := decide (status = 4) } now) := by
  unfold get_media_info mediaBody
  rw [stepSession_not_gate (not_sessionGate_of hsid hg)]
  dsimp only
  unfold stepTimeline
  rw [hsid]
  dsimp only
  rw [if_pos ht, hp]
  dsimp only
  rw [htl]
  dsimp only
  rw [hpb]


theorem refreshTimeline_resync {t : Timeline} {simulated : ℤ} {now : ℚ}
    {props : MediaProps} {tl : TimelineProps} (hpos : tl.position ≠ 0) :
    (refreshTimeline t simulated now props (some tl)).base_position =
      (if 2 < |pyInt tl.position - simulated| then pyInt tl.position else simulated) ∧
    (refreshTimeline t simulated now props (some tl)).base_time = now := by
  unfold refreshTimeline
  dsimp only
  rw [if_pos hpos]
  constructor <;> split_ifs <;> rfl

theorem refreshTimeline_meta (t : Timeline) (simulated : ℤ) (now : ℚ)
    (props : MediaProps) (tlOpt : Option TimelineProps) :
    (refreshTimeline t simulated now props tlOpt).title = pyOrStr props.title "No Title" ∧
    (refreshTimeline t simulated now props tlOpt).artist = pyOrStr props.artist "No Artist" := by
  unfold refreshTimeline
  cases tlOpt with
  | none => exact ⟨rfl, rfl⟩
  | some tl =>
    dsimp only
    split_ifs <;> exact ⟨rfl, rfl⟩

/-- Claim C1 (amended). -/
theorem C1_drift_resync_amended (st : MediaState) (o : Oracle) (now : ℚ) (sid : ℕ)
    (props : MediaProps) (tl : TimelineProps) (status : ℤ)
    (hsid : st.media_session = some sid)
    (hg : ¬ (3 < now - st.media_last_refresh))
    (ht : timelineGate st now)
    (hp : o.getProps = .ok (some props))
    (htl : o.getTimeline = .ok (some tl))
    (hpos : tl.position ≠ 0)
    (hpb : o.getPlayback = .ok (some status)) :
    (get_media_info st o now).1.timeline.base_position =
      (if 2 < |pyInt tl.position - smoothElapsed st.timeline now|
       then pyInt tl.position else smoothElapsed st.timeline now) ∧
    (get_media_info st o now).1.timeline.base_time = now := by
  rw [refresh_eval hsid hg ht hp htl hpb]
  exact refreshTimeline_resync hpos

/-- Claim C1 counterexample. -/
theorem C1_drift_resync_counterexample :
    2 < |pyInt (0:ℚ) - smoothElapsed stC1.timeline 9| ∧
    (get_media_info stC1 oC1 9).1.timeline.title = "T2" ∧
    (get_media_info stC1 oC1 9).1.timeline.base_position = 10 ∧
    (get_media_info stC1 oC1 9).1.timeline.base_time = 0 := by
  norm_num [get_media_info, mediaBody, stepSession, stepTimeline, refreshTimeline,
    sessionGate, timelineGate, stC1, oC1, smoothElapsed, pyInt, pyOrStr, smoothTuple]
  decide

/-- Claim C1 witness. -/
theorem C1_drift_resync_witness :
    stC1.media_session = some 1 ∧ timelineGate stC1 9 ∧
    (get_media_info stC1 oW1 9).1.timeline.base_time = 9 :=
  ⟨rfl, by norm_num [timelineGate, stC1],
   (C1_drift_resync_amended stC1 oW1 9 1 ⟨some "T2", some "A2"⟩ ⟨30, 200⟩ 4 rfl
      (by norm_num [stC1]) (by norm_num [timelineGate, stC1]) rfl rfl (by norm_num) rfl).2⟩

/-- Claim C10. -/
theorem C10_metadata_placeholders (st : MediaState) (o : Oracle) (now : ℚ) (sid : ℕ)
    (props : MediaProps) (tlOpt : Option TimelineProps) (status : ℤ)
    (hsid : st.media_session = some sid)
    (hg : ¬ (3 < now - st.media_last_refresh))
    (ht : timelineGate st now)
    (hp : o.getProps = .ok (some props))
    (htl : o.getTimeline = .ok tlOpt)
    (hpb : o.getPlayback = .ok (some status))
    (hTitle : props.title = none ∨ props.title = some "")
    (hArtist : props.artist = none ∨ props.artist = some "") :
    (get_media_info st o now).1.timeline.title = "No Title" ∧
    (get_media_info st o now).1.timeline.artist = "No Artist" ∧
    (get_media_info st o now).2.1 = "No Title" ∧
    (get_media_info st o now).2.2.1 = "No Artist" := by
  rw [refresh_eval hsid hg ht hp htl hpb]
  have h1 : pyOrStr props.title "No Title" = "No Title" := by
    rcases hTitle with h | h <;> rw [h] <;> rfl
  have h2 : pyOrStr props.artist "No Artist" = "No Artist" := by
    rcases hArtist with h | h <;> rw [h] <;> rfl
  have hm := refreshTimeline_meta st.timeline (smoothElapsed st.timeline now) now props tlOpt
  exact ⟨hm.1.trans h1, hm.2.trans h2, hm.1.trans h1, hm.2.trans h2⟩

/-- Claim C10 witness. -/
theorem C10_metadata_placeholders_witness :
    timelineGate stW10 9 ∧ (get_media_info stW10 oW10 9).2.1 = "No Title" :=
  ⟨by norm_num [timelineGate, stW10],
   (C10_metadata_placeholders stW10 oW10 9 1 ⟨some "", none⟩ none 4 rfl
      (by norm_num [stW10]) (by norm_num [timelineGate, stW10]) rfl rfl rfl
      (Or.inr rfl) (Or.inl rfl)).2.2.1⟩

theorem stepSession_ok_timeline {st : MediaState} {o : Oracle} {now : ℚ} {st1 : MediaState}
    (h : stepSession st o now = .ok st1) : st1.timeline = st.timeline := by
  unfold stepSession at h
  split_ifs at h with hg
  · cases hc : o.getSession with
    | error e => rw [hc] at h; exact Except.noConfusion h
    | ok s => rw [hc] at h; cases h; rfl
  · cases h; rfl

theorem stepSession_error_eq {st : MediaState} {o : Oracle} {now : ℚ} {e : MediaState}
    (h : stepSession st o now = .error e) : e = st := by
  unfold stepSession at h
  by_cases hg : sessionGate st now
  · rw [if_pos hg] at h
    cases hc : o.getSession with
    | error u => rw [hc] at h; cases h; rfl
    | ok s => rw [hc] at h; exact Except.noConfusion h
  · rw [if_neg hg] at h
    exact Except.noConfusion h

theorem noRefresh_state (st : MediaState) (o : Oracle) (now : ℚ)
    (hg : ¬ sessionGate st now) (ht : ¬ timelineGate st now) :
    get_media_info st o now = (st, smoothTuple st.timeline now) := by
  unfold get_media_info mediaBody
  rw [stepSession_not_gate hg]
  dsimp only
  rw [stepTimeline_no_gate ht]

/-- Claim C2: monotonic smoothing between refreshes. -/
theorem C2_monotonic_smoothing (st : MediaState) (o1 o2 : Oracle) (now1 now2 : ℚ)
    (hplay : st.timeline.playing = true)
    (hlt : now1 < now2)
    (ht1 : ¬ timelineGate st now1)
    (hs1 : sessionGate st now1 → ∃ s, o1.getSession = .ok s)
    (ht2 : ¬ timelineGate st now2)
    (hs2 : sessionGate (get_media_info st o1 now1).1 now2 → ∃ s, o2.getSession = .ok s) :
    (get_media_info st o1 now1).2.2.2.1 = fmtTime (smoothElapsed st.timeline now1) ∧
    (get_media_info (get_media_info st o1 now1).1 o2 now2).2.2.2.1 =
      fmtTime (smoothElapsed st.timeline now2) ∧
    smoothElapsed st.timeline now1 ≤ smoothElapsed st.timeline now2 := by
  obtain ⟨hT1, hO1⟩ := noTimelineRefresh_eval st o1 now1 ht1 hs1
  have ht2' : ¬ timelineGate (get_media_info st o1 now1).1 now2 := by
    unfold timelineGate at ht2 ⊢
    rw [hT1]
    exact ht2
  obtain ⟨hT2, hO2⟩ := noTimelineRefresh_eval _ o2 now2 ht2' hs2
  refine ⟨?_, ?_, ?_⟩
  · rw [hO1]
    rfl
  · rw [hO2, hT1]
    rfl
  · have hm := pyInt_mono (sub_le_sub_right (le_of_lt hlt) st.timeline.base_time)
    simp only [smoothElapsed, hplay, if_true]
    omega

/-- Claim C2 witness. -/
theorem C2_monotonic_smoothing_witness :
    stW2.timeline.playing = true ∧ ((1:ℚ) < 2) ∧
    smoothElapsed stW2.timeline 1 ≤ smoothElapsed stW2.timeline 2 :=
  ⟨rfl, by norm_num,
   (C2_monotonic_smoothing stW2 oErr oErr 1 2 rfl (by norm_num)
      (by norm_num [timelineGate, stW2])
      (fun h => absurd h (not_sessionGate_of rfl (by norm_num [stW2])))
      (by norm_num [timelineGate, stW2])
      (fun h => absurd h (by
        rw [noRefresh_state stW2 oErr 1 (not_sessionGate_of rfl (by norm_num [stW2]))
          (by norm_num [timelineGate, stW2])]
        exact not_sessionGate_of rfl (by norm_num [stW2])))).2.2⟩

/-- Claim C7: refresh gating — a sample's result cannot depend on any
collaborator call whose refresh interval has not elapsed. -/
theorem C7_refresh_gating (st : MediaState) (now : ℚ) (o o' : Oracle)
    (h1 : sessionGate st now → o.getSession = o'.getSession)
    (h2 : timelineGate st now →
      o.getProps = o'.getProps ∧ o.getTimeline = o'.getTimeline ∧ o.getPlayback = o'.getPlayback) :
    get_media_info st o now = get_media_info st o' now := by
  unfold get_media_info mediaBody
  have hss : stepSession st o now = stepSession st o' now := by
    unfold stepSession
    split_ifs with hg
    · rw [h1 hg]
    · rfl
  rw [← hss]
  cases hse : stepSession st o now with
  | error e => rfl
  | ok st1 =>
    dsimp only
    have htt : stepTimeline st1 o now = stepTimeline st1 o' now := by
      unfold stepTimeline
      cases hms : st1.media_session with
      | none => rfl
      | some sid =>
        dsimp only
        split_ifs with htg
        · have htg' : timelineGate st now := by
            unfold timelineGate at htg ⊢
            rw [stepSession_ok_timeline hse] at htg
            exact htg
          obtain ⟨e1, e2, e3⟩ := h2 htg'
          rw [e1, e2, e3]
        · rfl
    rw [htt]

/-- Claim C7 witness. -/
theorem C7_refresh_gating_witness :
    (¬ sessionGate stW7 10) ∧ (¬ timelineGate stW7 10) ∧
    get_media_info stW7 oErr 10 = get_media_info stW7 oOk 10 :=
  ⟨not_sessionGate_of rfl (by norm_num [stW7]), by norm_num [timelineGate, stW7],
   C7_refresh_gating stW7 10 oErr oOk
     (fun h => absurd h (not_sessionGate_of rfl (by norm_num [stW7])))
     (fun h => absurd h (by norm_num [timelineGate, stW7]))⟩


theorem smoothElapsed_nonneg {t : Timeline} {now : ℚ}
    (hbp : 0 ≤ t.base_position) (hbt : t.base_time ≤ now) : 0 ≤ smoothElapsed t now := by
  unfold smoothElapsed
  cases hp : t.playing with
  | false => simpa using hbp
  | true =>
    simp only [if_true]
    exact add_nonneg hbp (pyInt_nonneg (sub_nonneg.2 hbt))

theorem refreshTimeline_base_bounds {t : Timeline} {sim : ℤ} {now : ℚ}
    {props : MediaProps} {tlOpt : Option TimelineProps}
    (hbp : 0 ≤ t.base_position) (hbt : t.base_time ≤ now) (hsim : 0 ≤ sim)
    (hpos : ∀ tl : TimelineProps, tlOpt = some tl → 0 ≤ tl.position) :
    0 ≤ (refreshTimeline t sim now props tlOpt).base_position ∧
    (refreshTimeline t sim now props tlOpt).base_time ≤ now := by
  unfold refreshTimeline
  cases tlOpt with
  | none => exact ⟨hbp, hbt⟩
  | some tl =>
    dsimp only
    split_ifs with h1 h2 h3 <;>
      constructor <;>
      first
        | exact hbp
        | exact hbt
        | exact le_refl now
        | exact hsim
        | exact pyInt_nonneg (hpos tl rfl)

theorem stepTimeline_base_bounds {st1 : MediaState} {o : Oracle} {now : ℚ}
    (hpos : ∀ tl : TimelineProps, o.getTimeline = .ok (some tl) → 0 ≤ tl.position)
    (hbp : 0 ≤ st1.timeline.base_position) (hbt : st1.timeline.base_time ≤ now) :
    ∀ r : MediaState, (stepTimeline st1 o now = .ok r ∨ stepTimeline st1 o now = .error r) →
      0 ≤ r.timeline.base_position ∧ r.timeline.base_time ≤ now := by
  intro r hr
  unfold stepTimeline at hr
  cases hms : st1.media_session with
  | none =>
    rw [hms] at hr
    rcases hr with h | h
    · cases h
      exact ⟨hbp, hbt⟩
    · exact Except.noConfusion h
  | some sid =>
    rw [hms] at hr
    dsimp only at hr
    by_cases htg : timelineGate st1 now
    · rw [if_pos htg] at hr
      cases hp : o.getProps with
      | error u =>
        rw [hp] at hr
        rcases hr with h | h
        · exact Except.noConfusion h
        · cases h
          exact ⟨hbp, hbt⟩
      | ok propsOpt =>
        rw [hp] at hr
        dsimp only at hr
        cases hgt : o.getTimeline with
        | error u =>
          rw [hgt] at hr
          rcases hr with h | h
          · exact Except.noConfusion h
          · cases h
            exact ⟨hbp, hbt⟩
        | ok tlOpt =>
          rw [hgt] at hr
          dsimp only at hr
          cases hpb : o.getPlayback with
          | error u =>
            rw [hpb] at hr
            rcases hr with h | h
            · exact Except.noConfusion h
            · cases h
              exact ⟨hbp, hbt⟩
          | ok pbOpt =>
            rw [hpb] at hr
            dsimp only at hr
            have hpos2 : ∀ tl : TimelineProps, tlOpt = some tl → 0 ≤ tl.position := by
              intro tl htl
              exact hpos tl (by rw [hgt, htl])
            cases propsOpt with
            | none =>
              dsimp only at hr
              rcases hr with h | h
              · exact Except.noConfusion h
              · cases h
                exact ⟨hbp, hbt⟩
            | some props =>
              dsimp only at hr
              have hb := @refreshTimeline_base_bounds st1.timeline
                (smoothElapsed st1.timeline now) now props tlOpt hbp hbt
                (smoothElapsed_nonneg hbp hbt) hpos2
              cases pbOpt with
              | none =>
                dsimp only at hr
                rcases hr with h | h
                · exact Except.noConfusion h
                · cases h
                  exact hb
              | some status =>
                dsimp only at hr
                rcases hr with h | h
                · cases h
                  exact hb
                · exact Except.noConfusion h
    · rw [if_neg htg] at hr
      rcases hr with h | h
      · cases h
        exact ⟨hbp, hbt⟩
      · exact Except.noConfusion h

theorem invariant_preserved (st : MediaState) (o : Oracle) (now : ℚ)
    (hpos : ∀ tl : TimelineProps, o.getTimeline = .ok (some tl) → 0 ≤ tl.position)
    (hbt : st.timeline.base_time ≤ now) (hbp : 0 ≤ st.timeline.base_position) :
    0 ≤ (get_media_info st o now).1.timeline.base_position ∧
    (get_media_info st o now).1.timeline.base_time ≤ now := by
  unfold get_media_info mediaBody
  cases hse : stepSession st o now with
  | error e =>
    dsimp only
    rw [stepSession_error_eq hse]
    exact ⟨hbp, hbt⟩
  | ok st1 =>
    dsimp only
    have h1 : st1.timeline = st.timeline := stepSession_ok_timeline hse
    have hbp1 : 0 ≤ st1.timeline.base_position := by rw [h1]; exact hbp
    have hbt1 : st1.timeline.base_time ≤ now := by rw [h1]; exact hbt
    cases htt : stepTimeline st1 o now with
    | error e2 =>
      dsimp only
      exact stepTimeline_base_bounds hpos hbp1 hbt1 e2 (Or.inr htt)
    | ok st2 =>
      dsimp only
      exact stepTimeline_base_bounds hpos hbp1 hbt1 st2 (Or.inl htt)

/-- Claim C9. -/
theorem C9_displayed_elapsed_invariant :
    (∀ (st : MediaState) (o : Oracle) (now : ℚ),
      ¬ timelineGate st now →
      (sessionGate st now → ∃ s, o.getSession = .ok s) →
      st.timeline.base_time ≤ now →
      0 ≤ st.timeline.base_position →
      (get_media_info st o now).2.2.2.1 =
        fmtTime (st.timeline.base_position +
          (if st.timeline.playing then pyInt (now - st.timeline.base_time) else 0)) ∧
      0 ≤ st.timeline.base_position +
        (if st.timeline.playing then pyInt (now - st.timeline.base_time) else 0)) ∧
    (∀ (st : MediaState) (o : Oracle) (now : ℚ),
      (∀ tl : TimelineProps, o.getTimeline = .ok (some tl) → 0 ≤ tl.position) →
      st.timeline.base_time ≤ now →
      0 ≤ st.timeline.base_position →
      0 ≤ (get_media_info st o now).1.timeline.base_position ∧
      (get_media_info st o now).1.timeline.base_time ≤ now) := by
  constructor
  · intro st o now ht hs hbt hbp
    obtain ⟨hT, hO⟩ := noTimelineRefresh_eval st o now ht hs
    constructor
    · rw [hO]
      rfl
    · exact smoothElapsed_nonneg hbp hbt
  · intro st o now hpos hbt hbp
    exact invariant_preserved st o now hpos hbt hbp

/-- Claim C9 witness. -/
theorem C9_displayed_elapsed_invariant_witness :
    stW9.timeline.base_time ≤ (5:ℚ) ∧
    0 ≤ stW9.timeline.base_position +
      (if stW9.timeline.playing then pyInt (5 - stW9.timeline.base_time) else 0) :=
  ⟨by norm_num [stW9],
   (C9_displayed_elapsed_invariant.1 stW9 oOk 5 (by norm_num [timelineGate, stW9])
      (fun _ => ⟨some 1, rfl⟩) (by norm_num [stW9]) (by norm_num [stW9])).2⟩

theorem get_media_info_error {st : MediaState} {o : Oracle} {now : ℚ} {st' : MediaState}
    (h : mediaBody st o now = .error st') : get_media_info st o now = (st', mediaIdle) := by
  unfold get_media_info
  rw [h]

theorem refreshTimeline_playing (t : Timeline) (sim : ℤ) (now : ℚ)
    (props : MediaProps) (tlOpt : Option TimelineProps) :
    (refreshTimeline t sim now props tlOpt).playing = t.playing := by
  unfold refreshTimeline
  cases tlOpt with
  | none => rfl
  | some tl =>
    dsimp only
    split_ifs <;> rfl

theorem stepTimeline_error_playing {st1 : MediaState} {o : Oracle} {now : ℚ} {e2 : MediaState}
    (h : stepTimeline st1 o now = .error e2) : e2.timeline.playing = st1.timeline.playing := by
  unfold stepTimeline at h
  cases hms : st1.media_session with
  | none =>
    rw [hms] at h
    exact Except.noConfusion h
  | some sid =>
    rw [hms] at h
    dsimp only at h
    by_cases htg : timelineGate st1 now
    · rw [if_pos htg] at h
      cases hp : o.getProps with
      | error u =>
        rw [hp] at h
        cases h
        rfl
      | ok propsOpt =>
        rw [hp] at h
        dsimp only at h
        cases hgt : o.getTimeline with
        | error u =>
          rw [hgt] at h
          cases h
          rfl
        | ok tlOpt =>
          rw [hgt] at h
          dsimp only at h
          cases hpb : o.getPlayback with
          | error u =>
            rw [hpb] at h
            cases h
            rfl
          | ok pbOpt =>
            rw [hpb] at h
            dsimp only at h
            cases propsOpt with
            | none =>
              dsimp only at h
              cases h
              rfl
            | some props =>
              dsimp only at h
              cases pbOpt with
              | none =>
                dsimp only at h
                cases h
                exact refreshTimeline_playing st1.timeline (smoothElapsed st1.timeline now) now props tlOpt
              | some status =>
                dsimp only at h
                exact Except.noConfusion h
    · rw [if_neg htg] at h
      exact Except.noConfusion h

theorem mediaBody_error_playing {st : MediaState} {o : Oracle} {now : ℚ} {st' : MediaState}
    (h : mediaBody st o now = .error st') : st'.timeline.playing = st.timeline.playing := by
  unfold mediaBody at h
  cases hse : stepSession st o now with
  | error e =>
    rw [hse] at h
    dsimp only at h
    cases h
    rw [stepSession_error_eq hse]
  | ok st1 =>
    rw [hse] at h
    dsimp only at h
    cases htt : stepTimeline st1 o now with
    | error e2 =>
      rw [htt] at h
      dsimp only at h
      cases h
      rw [stepTimeline_error_playing htt, stepSession_ok_timeline hse]
    | ok st2 =>
      rw [htt] at h
      dsimp only at h
      exact Except.noConfusion h

/-- Claim C4 (amended). -/
theorem C4_failure_atomicity_amended :
    (∀ (st : MediaState) (o : Oracle) (now : ℚ) (st' : MediaState),
      mediaBody st o now = .error st' →
      get_media_info st o now = (st', mediaIdle) ∧
      st'.timeline.playing = st.timeline.playing) ∧
    (∀ (st : MediaState) (o : Oracle) (now : ℚ),
      sessionGate st now → o.getSession = .error () →
      get_media_info st o now = (st, mediaIdle)) := by
  constructor
  · intro st o now st' h
    exact ⟨get_media_info_error h, mediaBody_error_playing h⟩
  · intro st o now hg hs
    have hb : mediaBody st o now = .error st := by
      unfold mediaBody stepSession
      rw [if_pos hg, hs]
    exact get_media_info_error hb

/-- Claim C4 counterexample. -/
theorem C4_failure_atomicity_counterexample :
    oC4.getProps = .error () ∧
    (get_media_info stC4 oC4 5).2 = mediaIdle ∧
    (get_media_info stC4 oC4 5).1.media_last_refresh = 5 ∧
    stC4.media_last_refresh = 0 ∧
    (get_media_info stC4 oC4 5).1 ≠ stC4 := by
  have h5 : (get_media_info stC4 oC4 5).1.media_last_refresh = 5 := by
    norm_num [get_media_info, mediaBody, stepSession, stepTimeline, sessionGate, timelineGate,
      stC4, oC4]
  refine ⟨rfl, ?_, h5, rfl, ?_⟩
  · norm_num [get_media_info, mediaBody, stepSession, stepTimeline, sessionGate, timelineGate,
      stC4, oC4, mediaIdle]
  · intro h
    rw [h] at h5
    norm_num [stC4] at h5

/-- Claim C4 witness. -/
theorem C4_failure_atomicity_witness :
    sessionGate initialState 0 ∧ oErr.getSession = .error () ∧
    get_media_info initialState oErr 0 = (initialState, mediaIdle) :=
  ⟨Or.inl rfl, rfl, C4_failure_atomicity_amended.2 initialState oErr 0 (Or.inl rfl) rfl⟩

/-- Claim C3 (amended). -/
theorem C3_idle_fallback_amended :
    (∀ (st : MediaState) (o : Oracle) (now : ℚ) (st' : MediaState),
      mediaBody st o now = .error st' → (get_media_info st o now).2 = mediaIdle) ∧
    (∀ (st : MediaState) (o : Oracle) (now : ℚ),
      sessionGate st now → o.getSession = .ok none →
      (get_media_info st o now).2 = smoothTuple st.timeline now) ∧
    (∀ (o : Oracle) (now : ℚ),
      o.getSession = .ok none → (get_media_info initialState o now).2 = mediaIdle) := by
  have key : ∀ (st : MediaState) (o : Oracle) (now : ℚ),
      sessionGate st now → o.getSession = .ok none →
      (get_media_info st o now).2 = smoothTuple st.timeline now := by
    intro st o now hg hs
    unfold get_media_info mediaBody
    rw [stepSession_gate_ok hg hs]
    dsimp only
    rw [show stepTimeline { st with media_session := none, media_last_refresh := now } o now
        = .ok { st with media_session := none, media_last_refresh := now } from rfl]
  refine ⟨?_, key, ?_⟩
  · intro st o now st' h
    rw [get_media_info_error h]
  · intro o now hs
    rw [key initialState o now (Or.inl rfl) hs]
    rfl

/-- Claim C3 counterexample. -/
theorem C3_idle_fallback_counterexample :
    oC3.getSession = .ok none ∧
    (get_media_info stC3 oC3 5).2 ≠ mediaIdle := by
  refine ⟨rfl, ?_⟩
  norm_num [get_media_info, mediaBody, stepSession, stepTimeline, sessionGate, timelineGate,
    stC3, oC3, smoothTuple, smoothElapsed, pyInt, fmtTime, pad2, mediaIdle]
  decide

/-- Claim C3 witness. -/
theorem C3_idle_fallback_witness :
    mediaBody initialState oErr 0 = .error initialState ∧
    (get_media_info initialState oErr 0).2 = mediaIdle :=
  ⟨by norm_num [mediaBody, stepSession, sessionGate, initialState, oErr],
   C3_idle_fallback_amended.1 initialState oErr 0 initialState
     (by norm_num [mediaBody, stepSession, sessionGate, initialState, oErr])⟩

theorem toString_intCast_nat (n : ℕ) : toString ((n : ℤ)) = toString n := rfl

theorem fmtTime_natCast (s : ℕ) : fmtTime (s : ℤ) = specTimeLabel s := by
  have hdiv : Int.ediv (s : ℤ) 60 = ((s / 60 : ℕ) : ℤ) := by
    show (s : ℤ) / 60 = ((s / 60 : ℕ) : ℤ)
    omega
  have hmod : Int.emod (s : ℤ) 60 = ((s % 60 : ℕ) : ℤ) := by
    show (s : ℤ) % 60 = ((s % 60 : ℕ) : ℤ)
    omega
  unfold fmtTime specTimeLabel pad2
  rw [hdiv, hmod, toString_intCast_nat, toString_intCast_nat]
  rcases Nat.lt_or_ge (s % 60) 10 with h | h
  · rw [if_pos (by exact_mod_cast h), if_pos h]
  · rw [if_neg (by exact_mod_cast not_lt.2 h), if_neg (not_lt.2 h)]

/-- Claim C5. -/
theorem C5_time_formatting :
    (∀ s : ℕ, fmtTime (s : ℤ) = specTimeLabel s) ∧
    fmtTime 0 = "0:00" ∧ fmtTime 65 = "1:05" ∧ fmtTime 125 = "2:05" ∧ fmtTime 3599 = "59:59" :=
  ⟨fmtTime_natCast, by decide, by decide, by decide, by decide⟩


/-- Claim C6. -/
theorem C6_peak_level_mapping :
    (∀ data : List (ℚ × ℚ),
      0 ≤ (blockLevels data).1 ∧ (blockLevels data).1 ≤ 8 ∧
      0 ≤ (blockLevels data).2 ∧ (blockLevels data).2 ≤ 8) ∧
    (∀ data : List (ℚ × ℚ), channelPeak (data.map Prod.fst) = 0 → (blockLevels data).1 = 0) ∧
    (∀ data : List (ℚ × ℚ), 8/18 ≤ channelPeak (data.map Prod.fst) → (blockLevels data).1 = 8) ∧
    (∀ data : List (ℚ × ℚ), channelPeak (data.map Prod.snd) = 0 → (blockLevels data).2 = 0) ∧
    (∀ data : List (ℚ × ℚ), 8/18 ≤ channelPeak (data.map Prod.snd) → (blockLevels data).2 = 8) := by
  refine ⟨?_, ?_, ?_, ?_, ?_⟩
  · intro data
    obtain ⟨a1, a2⟩ := levelOf_bounds (channelPeak (data.map Prod.fst))
    obtain ⟨b1, b2⟩ := levelOf_bounds (channelPeak (data.map Prod.snd))
    exact ⟨a1, a2, b1, b2⟩
  · intro data h
    show levelOf _ = 0
    rw [h]
    exact levelOf_zero
  · intro data h
    exact levelOf_sat h
  · intro data h
    show levelOf _ = 0
    rw [h]
    exact levelOf_zero
  · intro data h
    exact levelOf_sat h

/-- Claim C6 witness. -/
theorem C6_peak_level_mapping_witness :
    channelPeak ([((0:ℚ), (1/2:ℚ))].map Prod.fst) = 0 ∧
    (8/18 : ℚ) ≤ channelPeak ([((0:ℚ), (1/2:ℚ))].map Prod.snd) ∧
    (blockLevels [((0:ℚ), (1/2:ℚ))]).1 = 0 ∧
    (blockLevels [((0:ℚ), (1/2:ℚ))]).2 = 8 :=
  ⟨by norm_num [channelPeak], by norm_num [channelPeak, abs_of_pos],
   C6_peak_level_mapping.2.1 [((0:ℚ), (1/2:ℚ))] (by norm_num [channelPeak]),
   C6_peak_level_mapping.2.2.2.2 [((0:ℚ), (1/2:ℚ))] (by norm_num [channelPeak, abs_of_pos])⟩

theorem mirrorLoop_length (reads : List (Option ℕ)) (capture : ℕ → List ℕ) (k : ℕ) :
    (mirrorLoop reads capture k).length = ackCount reads := by
  induction reads generalizing k with
  | nil => rfl
  | cons r rs ih =>
    unfold mirrorLoop
    by_cases h : r = some ACK_BYTE
    · rw [if_pos h]
      simp only [List.length_cons, ih]
      unfold ackCount
      rw [List.countP_cons]
      simp [h]
    · rw [if_neg h, ih]
      unfold ackCount
      rw [List.countP_cons]
      simp [h]

theorem mirrorLoop_mem (reads : List (Option ℕ)) (capture : ℕ → List ℕ) (k : ℕ) :
    ∀ w ∈ mirrorLoop reads capture k, ∃ j, w = START_BYTE :: capture j := by
  induction reads generalizing k with
  | nil =>
    intro w hw
    cases hw
  | cons r rs ih =>
    intro w hw
    unfold mirrorLoop at hw
    by_cases h : r = some ACK_BYTE
    · rw [if_pos h] at hw
      rcases List.mem_cons.1 hw with h1 | h2
      · exact ⟨k, h1⟩
      · exact ih (k + 1) w h2
    · rw [if_neg h] at hw
      exact ih k w hw

/-- Claim C8 (amended). -/
theorem C8_mirroring_handshake_amended (reads : List (Option ℕ)) (capture : ℕ → List ℕ)
    (hcap : ∀ k, (capture k).length = WIDTH * HEIGHT / 8) :
    (start_mirroring reads capture).length = 1 + ackCount reads ∧
    (∀ w ∈ start_mirroring reads capture,
      ∃ j, w = START_BYTE :: capture j ∧ w.length = 1 + WIDTH * HEIGHT / 8 ∧
        w.head? = some START_BYTE) := by
  constructor
  · unfold start_mirroring
    rw [List.length_cons, mirrorLoop_length]
    omega
  · intro w hw
    unfold start_mirroring at hw
    have hform : ∃ j, w = START_BYTE :: capture j := by
      rcases List.mem_cons.1 hw with h1 | h2
      · exact ⟨0, h1⟩
      · exact mirrorLoop_mem reads capture 1 w h2
    obtain ⟨j, hj⟩ := hform
    refine ⟨j, hj, ?_, ?_⟩
    · rw [hj, List.length_cons, hcap j]
      omega
    · rw [hj]
      rfl

/-- Claim C8 counterexample. -/
theorem C8_mirroring_handshake_counterexample :
    ackCount [] = 0 ∧
    (start_mirroring [] (fun _ => List.replicate (WIDTH * HEIGHT / 8) 0)).length = 1 :=
  ⟨rfl, rfl⟩

/-- Claim C8 witness. -/
theorem C8_mirroring_handshake_witness :
    (List.replicate (WIDTH * HEIGHT / 8) (0:ℕ)).length = WIDTH * HEIGHT / 8 ∧
    (start_mirroring [some ACK_BYTE, none, some 0, some ACK_BYTE]
        (fun _ => List.replicate (WIDTH * HEIGHT / 8) 0)).length =
      1 + ackCount [some ACK_BYTE, none, some 0, some ACK_BYTE] :=
  ⟨List.length_replicate _ _,
   (C8_mirroring_handshake_amended [some ACK_BYTE, none, some 0, some ACK_BYTE]
      (fun _ => List.replicate (WIDTH * HEIGHT / 8) 0)
      (fun _ => List.length_replicate _ _)).1⟩

end VortexMacroPad
